import Mathlib

/-!
A shallow embedding of `reveal` (src/reveal.c).

The program is a single C translation unit.  Its functions are embedded as
pure Lean functions over an explicit process state (the bytes written to the
standard output, the diagnostics written to the standard error and the global
`exitCode`) and an explicit file-system oracle `World` that answers the
system calls the program performs (`stat`, `lstat`, `getpwuid`, `getgrgid`,
`fopen`/`fgetc`, `realpath`, `opendir`/`readdir`).

Conventions of the embedding:

* a C string is the list of its bytes, a byte is a natural number below 256;
* `char` is the signed 8-bit type of the x86/x86-64 System V ABI, `int` is
  wider than `char`, `EOF` is `-1`;
* `float` and `double` are IEEE 754 binary32 and binary64 with the default
  rounding (to nearest, ties to even), expressions are evaluated in the
  precision of their type; a floating-point value is kept as the exact
  fraction it denotes;
* the values of the `S_IF*` constants are the ones of `<sys/stat.h>` on Linux;
* `NULL` is a pointer constant, so that `sizeof(dataTypeFlags) / sizeof(NULL)`
  is 12, the number of entries of the table;
* sizes, user ids and group ids are non-negative.
-/

namespace RevealC

/-! ## Strings, the process state and the file-system oracle -/

/-- A C string: the list of its bytes (without the terminating NUL). -/
abbrev CString := List Nat

/-- The bytes of a string literal of the source (all literals are ASCII). -/
def str (s : String) : CString := s.toList.map Char.toNat

/-- The observable state of the process. -/
structure State where
  /-- The bytes written to the standard output, in order. -/
  stdout : List Nat
  /-- The texts written to the standard error, one element per `fprintf` call. -/
  stderr : List CString
  /-- The global variable `exitCode` (a `uint8_t`). -/
  exitCode : Nat
  deriving DecidableEq, Repr

/-- The fields of `struct stat` read by the program. -/
structure Stat where
  st_mode : Nat
  st_size : Nat
  st_uid : Nat
  st_gid : Nat
  deriving DecidableEq, Repr

/-- The answers of the operating system to the calls made by the program.
`none` stands for a failing call (a non-zero return or a null pointer). -/
structure World where
  /-- The call `stat(path, &metadata)`, which follows symlinks. -/
  stat : CString → Option Stat
  /-- The call `lstat(path, &metadata)`, which does not follow symlinks. -/
  lstat : CString → Option Stat
  /-- The field `pw_name` of `getpwuid(uid)`. -/
  getpwuid : Nat → Option CString
  /-- The field `gr_name` of `getgrgid(gid)`. -/
  getgrgid : Nat → Option CString
  /-- The bytes that successive `fgetc` calls yield on `fopen(path, "r")`. -/
  fopen : CString → Option (List Nat)
  /-- The buffer filled by `realpath(path, absolutePath)`. -/
  realpath : CString → Option CString
  /-- The `d_name` fields that successive `readdir` calls yield on `opendir(path)`. -/
  opendir : CString → Option (List CString)

def PROGRAM_NAME : String := "reveal"
def PROGRAM_LICENSE : String := "Copyright (c) 2023, Sherman Rofeman. MIT license."
def PROGRAM_VERSION : String := "v5.2.0"

def EXIT_SUCCESS : Nat := 0
def EXIT_FAILURE : Nat := 1

/-- The value of `EOF` in `<stdio.h>`. -/
def EOF : Int := -1

/-- The state at program start: nothing written, `exitCode = EXIT_SUCCESS`. -/
def initialState : State := { stdout := [], stderr := [], exitCode := EXIT_SUCCESS }

/-- Writes bytes to the standard output (`printf` once its format is expanded). -/
def printf (text : List Nat) (s : State) : State :=
  { s with stdout := s.stdout ++ text }

/-- The call `puts(text)`: the text followed by a newline. -/
def puts (text : CString) (s : State) : State :=
  printf (text ++ str "\n") s

/-- The decimal digits of a number, as `%ld` and `%u` print a non-negative value. -/
def decimal (n : Nat) : CString := str (Nat.repr n)

/-! ## `PrintHelp` and `PrintComposedError` -/

def PrintHelp (s : State) : State :=
  s |> printf (str "Usage: " ++ str PROGRAM_NAME ++ str " [FLAGS]... [PATHS]...\n")
    |> puts (str "Reveals information about entries in the file system.")
    |> puts (str "")
    |> puts (str "METADATA FLAGS")
    |> puts (str "These flags show metadata about the program.")
    |> puts (str "")
    |> puts (str "  --help     prints these help instructions.")
    |> puts (str "  --version  prints its version.")
    |> puts (str "  --license  prints its license.")
    |> puts (str "")
    |> puts (str "DATA TYPE FLAGS")
    |> puts (str ("These flags change what data type the program will reveal from the "
         ++ "entries."))
    |> puts (str "")
    |> puts (str "  --contents (default)  prints its contents.")
    |> puts (str "  --type                prints its type.")
    |> puts (str "  --size                prints its size in bytes.")
    |> puts (str ("  --human-size          prints its size using the most readable "
         ++ "unit."))
    |> puts (str "  --user                prints the user that owns it.")
    |> puts (str "  --user-id             prints the ID of the user that owns it.")
    |> puts (str "  --group               prints the group that owns it.")
    |> puts (str "  --group-id            prints the ID of the group that owns it.")
    |> puts (str "  --permissions         prints its permissions in octal base.")
    |> puts (str ("  --human-permissions   prints its permissions for user, group "
         ++ "and others,"))
    |> puts (str ("                        respectively, using three set of characters "
         ++ "each:"))
    |> puts (str ("                        read (r), write (w), execute (x) and lack "
         ++ "(-)."))
    |> puts (str "  --inode               prints its serial number.")
    |> puts (str ("  --modified-date       prints the date where its contents were "
         ++ "last modified."))
    |> puts (str "")
    |> puts (str "TRANSPASSING FLAGS")
    |> puts (str "These flags changes the way the symlinks must be handled.")
    |> puts (str "")
    |> puts (str "  --untranspass (default)  does not resolve symlinks.")
    |> puts (str "  --transpass              resolves all levels of symlinks.")
    |> puts (str "")
    |> puts (str "EXIT CODES")
    |> puts (str ("It will throw exit code 1 in the end of its execution if an "
         ++ "error happened."))
    |> puts (str "")
    |> puts (str ("However, while still able to continue, it will keep revealing the "
         ++ "remaining"))
    |> puts (str "arguments.")
    |> puts (str "")
    |> puts (str "All the errors found will be reported through stderr.")
    |> puts (str "")
    |> puts (str "SOURCE CODE")
    |> puts (str "Its source code is available at:")
    |> puts (str "  https://github.com/skippyr/reveal")
    |> puts (str "")
    |> puts (str "ISSUES")
    |> puts (str "Report issues found in this program at:")
    |> puts (str "  https://github.com/skippyr/reveal/issues")

/-- The text that `PrintComposedError` sends to the standard error:
`fprintf(stderr, "%s: %s%s%s\n", PROGRAM_NAME, start, middle, end)`. -/
def composedError (descriptionStart descriptionMiddle descriptionEnd : CString) : CString :=
  str PROGRAM_NAME ++ str ": " ++ descriptionStart ++ descriptionMiddle ++ descriptionEnd
    ++ str "\n"

def PrintComposedError (descriptionStart descriptionMiddle descriptionEnd : CString)
    (s : State) : State :=
  { s with
    stderr := s.stderr ++ [composedError descriptionStart descriptionMiddle descriptionEnd]
    exitCode := EXIT_FAILURE }

/-! ## `RevealType` -/

def S_IFMT : Nat := 0o170000
def S_IFSOCK : Nat := 0o140000
def S_IFLNK : Nat := 0o120000
def S_IFREG : Nat := 0o100000
def S_IFBLK : Nat := 0o060000
def S_IFDIR : Nat := 0o040000
def S_IFCHR : Nat := 0o020000
def S_IFIFO : Nat := 0o010000

def RevealType (metadata : Stat) (s : State) : State :=
  let bits := metadata.st_mode &&& S_IFMT
  if bits = S_IFBLK then puts (str "Block") s
  else if bits = S_IFCHR then puts (str "Character") s
  else if bits = S_IFDIR then puts (str "Directory") s
  else if bits = S_IFIFO then puts (str "Fifo") s
  else if bits = S_IFLNK then puts (str "Symlink") s
  else if bits = S_IFREG then puts (str "File") s
  else if bits = S_IFSOCK then puts (str "Socket") s
  else puts (str "Unknown") s

/-! ## `RevealHumanSize`

The macro `PARSE_SIZE(buffer, metadata, multiplier, unit)` computes
`metadata->st_size / (multiplier)` in `double` (the multipliers `1e9`, `1e6`
and `1e3` are `double` constants, so the `long` size is converted first),
stores the quotient in the `float` variable `buffer`, tests `(int)buffer` and
prints the `float` with `%.1f`.  Each of these steps is modelled exactly. -/

/-- A non-negative floating-point value, kept as the exact fraction
`num / den` it denotes (`den` is a power of two). -/
structure Fp where
  num : Nat
  den : Nat
  deriving DecidableEq, Repr

/-- The floor of the binary logarithm (by halving, `fuel` bounds the steps). -/
def floorLog2 : Nat → Nat → Nat
  | 0, _ => 0
  | fuel + 1, n => if 2 ≤ n then floorLog2 fuel (n / 2) + 1 else 0

/-- The floating-point number with `p` significand bits nearest to the
fraction `n / d`, ties to even.  The exponent range is not modelled: every
value the program computes lies far inside the normal range of both formats. -/
def roundToPrecision (p n d : Nat) : Fp :=
  if n = 0 then { num := 0, den := 1 } else
  let a := floorLog2 n n
  let b := floorLog2 d d
  -- the binary exponent of n / d is a - b - adj
  let adj := if d * 2 ^ a ≤ n * 2 ^ b then 0 else 1
  -- scale by 2 ^ up / 2 ^ down so that the quotient has exactly p bits
  let up := (p - 1 + b + adj) - a
  let down := a - (p - 1 + b + adj)
  let scaledNum := n * 2 ^ up
  let scaledDen := d * 2 ^ down
  let q := scaledNum / scaledDen
  let r := scaledNum % scaledDen
  let significand := if scaledDen < 2 * r ∨ (2 * r = scaledDen ∧ q % 2 = 1) then q + 1 else q
  { num := significand * 2 ^ down, den := 2 ^ up }

/-- The conversion of a non-negative `long` to `double`. -/
def longToDouble (n : Nat) : Fp := roundToPrecision 53 n 1

/-- The division of two `double` values. -/
def doubleDiv (x y : Fp) : Fp := roundToPrecision 53 (x.num * y.den) (x.den * y.num)

/-- The conversion of a `double` to `float` (the assignment to `buffer`). -/
def doubleToFloat (x : Fp) : Fp := roundToPrecision 24 x.num x.den

/-- The cast `(int)buffer`: truncation toward zero.  C defines the cast for
values below 2^31 only, which covers every size below 2147483648 * 10^9
bytes; beyond, x86 yields a non-zero value, as this definition does. -/
def floatToInt (x : Fp) : Nat := x.num / x.den

/-- The conversion `%.1f`: the value rounded to one decimal (the exact binary
value is rounded to nearest, ties to even), integer part, point, one digit. -/
def formatF1 (x : Fp) : CString :=
  let q := (10 * x.num) / x.den
  let r := (10 * x.num) % x.den
  let tenths := if x.den < 2 * r ∨ (2 * r = x.den ∧ q % 2 = 1) then q + 1 else q
  decimal (tenths / 10) ++ str "." ++ decimal (tenths % 10)

/-- The `double` constant `1e9`. -/
def GIGA : Fp := { num := 1000000000, den := 1 }
/-- The `double` constant `1e6`. -/
def MEGA : Fp := { num := 1000000, den := 1 }
/-- The `double` constant `1e3`. -/
def KILO : Fp := { num := 1000, den := 1 }

/-- The macro `PARSE_SIZE`: `some` is the state after the `printf` when the
macro executes its `return`, `none` when the test `(int)buffer` is zero. -/
def PARSE_SIZE (metadata : Stat) (multiplier : Fp) (unit : CString) (s : State) :
    Option State :=
  let buffer := doubleToFloat (doubleDiv (longToDouble metadata.st_size) multiplier)
  if floatToInt buffer ≠ 0 then
    some (printf (formatF1 buffer ++ unit ++ str "\n") s)
  else none

def RevealHumanSize (metadata : Stat) (s : State) : State :=
  match PARSE_SIZE metadata GIGA (str "GB") s with
  | some s1 => s1
  | none =>
    match PARSE_SIZE metadata MEGA (str "MB") s with
    | some s1 => s1
    | none =>
      match PARSE_SIZE metadata KILO (str "KB") s with
      | some s1 => s1
      | none => printf (decimal metadata.st_size ++ str "B\n") s

/-! ## `RevealUser`, `RevealGroup`, `RevealFile`, `RevealDirectory` -/

def RevealUser (w : World) (metadata : Stat) (path : CString) (s : State) : State :=
  match w.getpwuid metadata.st_uid with
  | some pw_name => puts pw_name s
  | none => PrintComposedError (str "could not get user that owns \"") path (str "\".") s

def RevealGroup (w : World) (metadata : Stat) (path : CString) (s : State) : State :=
  match w.getgrgid metadata.st_gid with
  | some gr_name => puts gr_name s
  | none => PrintComposedError (str "could not get group that owns \"") path (str "\".") s

/-- The conversion of an `int` to `char` (signed, 8 bits): the assignment
`character = fgetc(file)`.  The byte 255 becomes -1, the value of `EOF`. -/
def intToChar (v : Int) : Int := (v + 128) % 256 - 128

/-- The call `putchar(c)`: writes `c` converted to `unsigned char`. -/
def putchar (c : Int) (s : State) : State :=
  printf [(c % 256).toNat] s

/-- The loop `while ((character = fgetc(file)) != EOF) putchar(character);`
over the bytes that remain in the stream.  At the end of the stream `fgetc`
returns `EOF`, which the conversion to `char` keeps, and the loop ends. -/
def RevealFileLoop : List Nat → State → State
  | [], s => s
  | byte :: rest, s =>
    let character := intToChar (byte : Int)
    if character ≠ EOF then RevealFileLoop rest (putchar character s) else s

def RevealFile (w : World) (path : CString) (s : State) : State :=
  match w.fopen path with
  | none => PrintComposedError (str "could not open file \"") path (str "\".") s
  | some file => RevealFileLoop file s

/-- The loop `while ((entry = readdir(directory)))` over the names that
remain to be yielded. -/
def RevealDirectoryLoop (absolutePath separator : CString) : List CString → State → State
  | [], s => s
  | d_name :: rest, s =>
    if d_name = str "." ∨ d_name = str ".." then
      RevealDirectoryLoop absolutePath separator rest s
    else
      RevealDirectoryLoop absolutePath separator rest
        (printf (absolutePath ++ separator ++ d_name ++ str "\n") s)

def RevealDirectory (w : World) (path : CString) (s : State) : State :=
  match w.realpath path with
  | none =>
    PrintComposedError (str "could not resolve absolute path of \"") path (str "\".") s
  | some absolutePath =>
    match w.opendir path with
    | none => PrintComposedError (str "could not open directory \"") path (str "\".") s
    | some directory =>
      let separator := if absolutePath = str "/" then str "" else str "/"
      RevealDirectoryLoop absolutePath separator directory s

/-! ## `Reveal` and `main` -/

def Reveal (w : World) (path : CString) (dataType isTranspassing : Nat) (s : State) :
    State :=
  match (if isTranspassing ≠ 0 then w.stat path else w.lstat path) with
  | none =>
    PrintComposedError (str "the path \"") path (str "\" does not points to anything.") s
  | some metadata =>
    match dataType with
    | 1 => RevealType metadata s
    | 2 => printf (decimal metadata.st_size ++ str "\n") s
    | 3 => RevealHumanSize metadata s
    | 4 => RevealUser w metadata path s
    | 5 => printf (decimal metadata.st_uid ++ str "\n") s
    | 6 => RevealGroup w metadata path s
    | 7 => printf (decimal metadata.st_gid ++ str "\n") s
    | _ =>
      let bits := metadata.st_mode &&& S_IFMT
      if bits = S_IFREG then RevealFile w path s
      else if bits = S_IFDIR then RevealDirectory w path s
      else PrintComposedError (str "can not reveal the contents of \"") path (str "\" type.") s

/-- The macro `PARSE_METADATA_FLAG(flag, function, argument)`: `some` is the
state in which `exit(EXIT_SUCCESS)` is called, `none` when the flag differs. -/
def PARSE_METADATA_FLAG (flag : CString) (function : State → State) (argument : CString)
    (s : State) : Option State :=
  if flag = argument then some (function s) else none

/-- The first loop of `main`, over `arguments[1..]`: `some` is the state in
which the process exits, `none` when the loop runs to its end. -/
def metadataFlagsLoop : List CString → State → Option State
  | [], _ => none
  | argument :: rest, s =>
    match PARSE_METADATA_FLAG (str "--license") (puts (str PROGRAM_LICENSE)) argument s with
    | some s1 => some s1
    | none =>
      match PARSE_METADATA_FLAG (str "--help") PrintHelp argument s with
      | some s1 => some s1
      | none =>
        match PARSE_METADATA_FLAG (str "--version") (puts (str PROGRAM_VERSION)) argument s with
        | some s1 => some s1
        | none => metadataFlagsLoop rest s

def dataTypeFlags : List CString :=
  [str "--contents", str "--type",
   str "--size", str "--human-size",
   str "--user", str "--user-id",
   str "--group", str "--group-id",
   str "--permissions", str "--human-permissions",
   str "--inode", str "--modified-date"]

/-- The inner loop of `main` over `dataTypeFlags[j..]`: `some j` when the
`goto end` is taken with `dataType = j`. -/
def dataTypeFlagsLoop (argument : CString) : List CString → Nat → Option Nat
  | [], _ => none
  | flag :: rest, j =>
    if flag = argument then some (j % 256) else dataTypeFlagsLoop argument rest (j + 1)

/-- The second loop of `main`, over `arguments[1..]`, with the locals
`dataType` and `isTranspassing`.  The function called on a path is a
parameter, so that the sequence of calls can be observed; `main` passes
`Reveal`. -/
def argumentsLoop {σ : Type} (reveal : CString → Nat → Nat → σ → σ) :
    List CString → Nat → Nat → σ → σ
  | [], _, _, s => s
  | argument :: rest, dataType, isTranspassing, s =>
    match dataTypeFlagsLoop argument dataTypeFlags 0 with
    | some j => argumentsLoop reveal rest j isTranspassing s
    | none =>
      if argument = str "--transpass" then argumentsLoop reveal rest dataType 1 s
      else if argument = str "--untranspass" then argumentsLoop reveal rest dataType 0 s
      else argumentsLoop reveal rest dataType isTranspassing
        (reveal argument dataType isTranspassing s)

/-- The function `main`: the final state and the exit status of the process.
`arguments` is `argv`, `arguments[0]` included. -/
def main (w : World) (arguments : List CString) : State × Nat :=
  match metadataFlagsLoop (arguments.drop 1) initialState with
  | some s => (s, EXIT_SUCCESS)
  | none =>
    let s := argumentsLoop (Reveal w) (arguments.drop 1) 0 0 initialState
    (s, s.exitCode)

/-! ## Example file systems -/

/-- A file system with one regular file `f` (mode 0644) whose bytes are
`0x41 0xFF 0x42`, one regular file `bigfile` of 2147483648 bytes, one
regular file `notes` (mode 0644) that contains the text `hi`, the root
directory `/` and nothing else. -/
def exampleWorld : World where
  stat := fun path =>
    if path = str "f" then some { st_mode := 0o100644, st_size := 3, st_uid := 0, st_gid := 0 }
    else if path = str "bigfile" then
      some { st_mode := 0o100644, st_size := 2147483648, st_uid := 0, st_gid := 0 }
    else if path = str "notes" then
      some { st_mode := 0o100644, st_size := 3, st_uid := 0, st_gid := 0 }
    else if path = str "/" then
      some { st_mode := 0o040755, st_size := 4096, st_uid := 0, st_gid := 0 }
    else none
  lstat := fun path =>
    if path = str "f" then some { st_mode := 0o100644, st_size := 3, st_uid := 0, st_gid := 0 }
    else if path = str "bigfile" then
      some { st_mode := 0o100644, st_size := 2147483648, st_uid := 0, st_gid := 0 }
    else if path = str "notes" then
      some { st_mode := 0o100644, st_size := 3, st_uid := 0, st_gid := 0 }
    else if path = str "/" then
      some { st_mode := 0o040755, st_size := 4096, st_uid := 0, st_gid := 0 }
    else none
  getpwuid := fun uid => if uid = 0 then some (str "root") else none
  getgrgid := fun gid => if gid = 0 then some (str "root") else none
  fopen := fun path =>
    if path = str "f" then some [0x41, 0xFF, 0x42]
    else if path = str "notes" then some (str "hi\n")
    else none
  realpath := fun path => if path = str "/" then some (str "/") else none
  opendir := fun path =>
    if path = str "/" then some [str ".", str "etc", str "..", str "usr"] else none

/-! ## The vocabulary of the specification

The definitions below follow the words of the specification, not the code:
they say which call of `Reveal` each position of the argument list is
expected to produce. -/

/-- The metadata flags. -/
def metadataFlags : List CString := [str "--help", str "--version", str "--license"]

/-- The transpass flags. -/
def transpassFlags : List CString := [str "--transpass", str "--untranspass"]

/-- An argument is a path when it is neither a data-type flag nor a
transpass flag. -/
def isPathArgument (argument : CString) : Bool :=
  decide (argument ∉ dataTypeFlags ∧ argument ∉ transpassFlags)

/-- The data type that a data-type flag selects, numbered in the order of
the data types: Contents 0, Type 1, Size 2, HumanSize 3, User 4, UserId 5,
Group 6, GroupId 7, Permissions 8, HumanPermissions 9, Inode 10,
ModifiedDate 11. -/
def dataTypeOfFlag (flag : CString) : Nat :=
  if flag = str "--contents" then 0
  else if flag = str "--type" then 1
  else if flag = str "--size" then 2
  else if flag = str "--human-size" then 3
  else if flag = str "--user" then 4
  else if flag = str "--user-id" then 5
  else if flag = str "--group" then 6
  else if flag = str "--group-id" then 7
  else if flag = str "--permissions" then 8
  else if flag = str "--human-permissions" then 9
  else if flag = str "--inode" then 10
  else if flag = str "--modified-date" then 11
  else 0

/-- The data type in effect after the arguments `earlier`: the one of the
last data-type flag among them, Contents if there is none. -/
def specDataType (earlier : List CString) : Nat :=
  match earlier.reverse.find? (fun argument => decide (argument ∈ dataTypeFlags)) with
  | some flag => dataTypeOfFlag flag
  | none => 0

/-- The transpass mode in effect after the arguments `earlier`: the one of
the last transpass flag among them (1 for `--transpass`, 0 for
`--untranspass`), untranspassing if there is none. -/
def specTranspass (earlier : List CString) : Nat :=
  match earlier.reverse.find? (fun argument => decide (argument ∈ transpassFlags)) with
  | some flag => if flag = str "--transpass" then 1 else 0
  | none => 0

/-- The call expected at position `i` of the argument list, if any: a path
is revealed with the selectors set by the flags at the positions below `i`. -/
def specCallAt (arguments : List CString) (i : Nat) : Option (CString × Nat × Nat) :=
  if isPathArgument (arguments.getD i []) then
    some (arguments.getD i [], specDataType (arguments.take i),
      specTranspass (arguments.take i))
  else none

/-- The calls of `Reveal` expected for an argument list, in argument order. -/
def specCalls (arguments : List CString) : List (CString × Nat × Nat) :=
  (List.range arguments.length).filterMap (specCallAt arguments)

/-- The expected calls for the arguments `rest` that follow the arguments
`earlier`, by recursion on `rest`. -/
def specCallsFrom (earlier : List CString) : List CString → List (CString × Nat × Nat)
  | [] => []
  | argument :: rest =>
    (if isPathArgument argument then
        [(argument, specDataType earlier, specTranspass earlier)]
      else []) ++ specCallsFrom (earlier ++ [argument]) rest

/-- The text printed for a metadata flag. -/
def metadataText (flag : CString) : List Nat :=
  if flag = str "--license" then str PROGRAM_LICENSE ++ str "\n"
  else if flag = str "--help" then (PrintHelp initialState).stdout
  else str PROGRAM_VERSION ++ str "\n"

/-- The position of the first occurrence of an argument in a list of flags. -/
def flagRank (argument : CString) : List CString → Nat
  | [] => 0
  | flag :: rest => if flag = argument then 0 else flagRank argument rest + 1

/-- A state transformer that only appends to the two streams and sets the
exit code to failure exactly when it writes a diagnostic. -/
def Framed (f : State → State) : Prop :=
  ∃ (out : List Nat) (err : List CString), ∀ s : State,
    f s = { stdout := s.stdout ++ out
            stderr := s.stderr ++ err
            exitCode := if err = [] then s.exitCode else EXIT_FAILURE }

/-! ## Theorems -/

/-- C9: for every mode, `RevealType` prints exactly one label followed by a
newline and changes nothing else; the label is fixed by the file-type bits
`st_mode & S_IFMT` alone (Block, Character, Directory, Fifo, Symlink, File,
Socket for the seven known kinds, Unknown for every other value), so two
modes with equal file-type bits give the same output; a directory such as
`/` (mode 040755) gives `Directory`. -/
theorem RevealType_total_on_file_type_bits :
    (∀ (metadata : Stat) (s : State),
      (∃ label ∈ ["Block", "Character", "Directory", "Fifo", "Symlink", "File", "Socket",
          "Unknown"],
        RevealType metadata s = { s with stdout := s.stdout ++ str label ++ str "\n" }) ∧
      (metadata.st_mode &&& S_IFMT = S_IFBLK → RevealType metadata s = puts (str "Block") s) ∧
      (metadata.st_mode &&& S_IFMT = S_IFCHR →
        RevealType metadata s = puts (str "Character") s) ∧
      (metadata.st_mode &&& S_IFMT = S_IFDIR →
        RevealType metadata s = puts (str "Directory") s) ∧
      (metadata.st_mode &&& S_IFMT = S_IFIFO → RevealType metadata s = puts (str "Fifo") s) ∧
      (metadata.st_mode &&& S_IFMT = S_IFLNK →
        RevealType metadata s = puts (str "Symlink") s) ∧
      (metadata.st_mode &&& S_IFMT = S_IFREG → RevealType metadata s = puts (str "File") s) ∧
      (metadata.st_mode &&& S_IFMT = S_IFSOCK →
        RevealType metadata s = puts (str "Socket") s) ∧
      (metadata.st_mode &&& S_IFMT ∉
          [S_IFBLK, S_IFCHR, S_IFDIR, S_IFIFO, S_IFLNK, S_IFREG, S_IFSOCK] →
        RevealType metadata s = puts (str "Unknown") s)) ∧
    (∀ (m1 m2 : Stat) (s : State), m1.st_mode &&& S_IFMT = m2.st_mode &&& S_IFMT →
      RevealType m1 s = RevealType m2 s) ∧
    (RevealType { st_mode := 0o040755, st_size := 4096, st_uid := 0, st_gid := 0 }
      initialState).stdout = str "Directory\n" := by
  refine ⟨fun metadata s => ⟨?_, ?_, ?_, ?_, ?_, ?_, ?_, ?_, ?_⟩, ?_, by decide⟩
  · unfold RevealType
    simp only [puts, printf, List.append_assoc]
    split_ifs
    · exact ⟨"Block", by simp, rfl⟩
    · exact ⟨"Character", by simp, rfl⟩
    · exact ⟨"Directory", by simp, rfl⟩
    · exact ⟨"Fifo", by simp, rfl⟩
    · exact ⟨"Symlink", by simp, rfl⟩
    · exact ⟨"File", by simp, rfl⟩
    · exact ⟨"Socket", by simp, rfl⟩
    · exact ⟨"Unknown", by simp, rfl⟩
  · intro h; simp [RevealType, h]
  · intro h; simp [RevealType, h, S_IFCHR, S_IFBLK]
  · intro h; simp [RevealType, h, S_IFCHR, S_IFBLK, S_IFDIR]
  · intro h; simp [RevealType, h, S_IFCHR, S_IFBLK, S_IFDIR, S_IFIFO]
  · intro h; simp [RevealType, h, S_IFCHR, S_IFBLK, S_IFDIR, S_IFIFO, S_IFLNK]
  · intro h; simp [RevealType, h, S_IFCHR, S_IFBLK, S_IFDIR, S_IFIFO, S_IFLNK, S_IFREG]
  · intro h
    simp [RevealType, h, S_IFCHR, S_IFBLK, S_IFDIR, S_IFIFO, S_IFLNK, S_IFREG, S_IFSOCK]
  · intro h
    simp only [List.mem_cons, List.mem_singleton, List.not_mem_nil, or_false, not_or] at h
    obtain ⟨h1, h2, h3, h4, h5, h6, h7⟩ := h
    simp [RevealType, h1, h2, h3, h4, h5, h6, h7]
  · intro m1 m2 s h
    simp [RevealType, h]

/-- C4: when the `stat`/`lstat` query selected by the transpass mode fails,
`Reveal` dispatches on no data type: whatever `dataType` is, it leaves the
standard output untouched, appends exactly one diagnostic, the line
`reveal: the path "<path>" does not points to anything.`, of the form
`reveal: <message>.` with the path inside the message, to the standard
error, sets the exit code to failure and returns. -/
theorem Reveal_stat_failure (w : World) (path : CString) (dataType isTranspassing : Nat)
    (s : State)
    (h : (if isTranspassing ≠ 0 then w.stat path else w.lstat path) = none) :
    Reveal w path dataType isTranspassing s =
      { stdout := s.stdout
        stderr := s.stderr ++
          [str "reveal: " ++ (str "the path \"" ++ path ++ str "\" does not points to anything")
            ++ str ".\n"]
        exitCode := EXIT_FAILURE } ∧
    path <:+: str "the path \"" ++ path ++ str "\" does not points to anything" := by
  constructor
  · unfold Reveal
    rw [h]
    simp [PrintComposedError, composedError, str, PROGRAM_NAME]
  · exact ⟨str "the path \"", str "\" does not points to anything", by simp⟩

/-- The scenario `reveal missingfile`: one line on the standard error that
names `missingfile`, nothing on the standard output, exit code 1. -/
theorem Reveal_stat_failure_witness :
    (if (0 : Nat) ≠ 0 then exampleWorld.stat (str "missingfile")
      else exampleWorld.lstat (str "missingfile")) = none ∧
    (Reveal exampleWorld (str "missingfile") 0 0 initialState =
      { stdout := []
        stderr := [str "reveal: the path \"missingfile\" does not points to anything.\n"]
        exitCode := 1 } ∧
     str "missingfile" <:+:
       str "the path \"" ++ str "missingfile" ++ str "\" does not points to anything") ∧
    main exampleWorld [str "reveal", str "missingfile"] =
      ({ stdout := []
         stderr := [str "reveal: the path \"missingfile\" does not points to anything.\n"]
         exitCode := 1 }, 1) :=
  ⟨by decide,
   Reveal_stat_failure exampleWorld (str "missingfile") 0 0 initialState (by decide),
   by decide⟩

/-- The lines printed by the directory loop: one line `absolutePath ++
separator ++ name` per yielded name other than `.` and `..`, in the yielded
order. -/
theorem RevealDirectoryLoop_eq (absolutePath separator : CString) (names : List CString)
    (s : State) :
    RevealDirectoryLoop absolutePath separator names s =
      { s with stdout := s.stdout ++
          ((names.filter (fun name => decide (name ≠ str "." ∧ name ≠ str ".."))).map
            (fun name => absolutePath ++ separator ++ name ++ str "\n")).flatten } := by
  induction names generalizing s with
  | nil => simp [RevealDirectoryLoop]
  | cons name rest ih =>
    unfold RevealDirectoryLoop
    by_cases h : name = str "." ∨ name = str ".."
    · have h2 : ¬ (name ≠ str "." ∧ name ≠ str "..") := by tauto
      rw [if_pos h, ih]
      simp [List.filter_cons, h2]
    · have h2 : name ≠ str "." ∧ name ≠ str ".." := by tauto
      rw [if_neg h, ih]
      simp [List.filter_cons, h2, printf]

/-- C5: for a directory whose absolute path `A` resolves and which can be
opened, whatever sequence of names the directory read yields,
`RevealDirectory` appends to the standard output exactly the lines
`A ++ sep ++ name`, one per yielded name other than `.` and `..`, in the
yielded order, where `sep` is empty when `A` is `/` and `/` otherwise; it
writes no diagnostic and leaves the exit code unchanged. -/
theorem RevealDirectory_lists_entries (w : World) (path A : CString)
    (names : List CString) (s : State)
    (hA : w.realpath path = some A) (hopen : w.opendir path = some names) :
    RevealDirectory w path s =
      { stdout := s.stdout ++
          ((names.filter (fun name => decide (name ≠ str "." ∧ name ≠ str ".."))).map
            (fun name =>
              A ++ (if A = str "/" then str "" else str "/") ++ name ++ str "\n")).flatten
        stderr := s.stderr
        exitCode := s.exitCode } := by
  unfold RevealDirectory
  simp only [hA, hopen]
  rw [RevealDirectoryLoop_eq]

/-- The listing of the root directory of the example file system. -/
theorem RevealDirectory_lists_entries_witness :
    exampleWorld.realpath (str "/") = some (str "/") ∧
    exampleWorld.opendir (str "/") = some [str ".", str "etc", str "..", str "usr"] ∧
    RevealDirectory exampleWorld (str "/") initialState =
      { stdout := str "/etc\n/usr\n", stderr := [], exitCode := 0 } := by
  refine ⟨by decide, by decide, ?_⟩
  rw [RevealDirectory_lists_entries exampleWorld (str "/") (str "/")
    [str ".", str "etc", str "..", str "usr"] initialState (by decide) (by decide)]
  decide

/-- The file loop copies the bytes that precede the first byte `0xFF` and
stops there: the byte `0xFF` stored in a `char` compares equal to `EOF`. -/
theorem RevealFileLoop_eq_takeWhile (file : List Nat) (s : State)
    (hbytes : ∀ byte ∈ file, byte < 256) :
    RevealFileLoop file s =
      { s with stdout := s.stdout ++ file.takeWhile (fun byte => decide (byte ≠ 255)) } := by
  induction file generalizing s with
  | nil => simp [RevealFileLoop]
  | cons byte rest ih =>
    have hb : byte < 256 := hbytes byte (List.mem_cons_self _ _)
    have hrest : ∀ b ∈ rest, b < 256 := fun b hmem => hbytes b (List.mem_cons_of_mem _ hmem)
    unfold RevealFileLoop
    by_cases h255 : byte = 255
    · subst h255
      simp [intToChar, EOF]
    · have hne : intToChar (byte : Int) ≠ EOF := by
        unfold intToChar EOF
        omega
      have hput : ((intToChar (byte : Int)) % 256).toNat = byte := by
        unfold intToChar
        omega
      simp only [hne, ne_eq, not_false_eq_true, if_true]
      rw [ih _ hrest]
      simp [putchar, printf, hput, List.takeWhile_cons, h255]

/-- C3 (evaluation at the failing input): for the openable regular file `f`
whose bytes are `0x41 0xFF 0x42`, `RevealFile` writes the single byte `0x41`
and stops, instead of the three bytes of the file.  In general `RevealFile`
writes the bytes of the file that precede its first byte `0xFF`, hence the
whole file exactly when no byte of it is `0xFF`. -/
theorem RevealFile_stops_at_byte_255 :
    exampleWorld.fopen (str "f") = some [0x41, 0xFF, 0x42] ∧
    (RevealFile exampleWorld (str "f") initialState).stdout = [0x41] ∧
    (RevealFile exampleWorld (str "f") initialState).stdout ≠ [0x41, 0xFF, 0x42] ∧
    (∀ (w : World) (path : CString) (file : List Nat) (s : State),
      w.fopen path = some file → (∀ byte ∈ file, byte < 256) →
      RevealFile w path s =
        { s with
          stdout := s.stdout ++ file.takeWhile (fun byte => decide (byte ≠ 255)) }) := by
  refine ⟨by decide, by decide, by decide, fun w path file s hopen hbytes => ?_⟩
  unfold RevealFile
  rw [hopen]
  exact RevealFileLoop_eq_takeWhile file s hbytes

/-- C6 (evaluation at the failing input): for the size 999999999, below
10^9, `RevealHumanSize` prints `1.0GB`: the quotient 0.999999999 stored in
the `float` variable is 1.0, whose truncation is not zero.  The sizes
1500000000 and 999 print `1.5GB` and `999B`. -/
theorem RevealHumanSize_below_giga_prints_GB :
    (RevealHumanSize { st_mode := 0o100644, st_size := 999999999, st_uid := 0, st_gid := 0 }
      initialState).stdout = str "1.0GB\n" ∧
    doubleToFloat (doubleDiv (longToDouble 999999999) GIGA) = { num := 16777216, den := 16777216 } ∧
    999999999 / 1000000000 = 0 ∧
    (RevealHumanSize { st_mode := 0o100644, st_size := 1500000000, st_uid := 0, st_gid := 0 }
      initialState).stdout = str "1.5GB\n" ∧
    (RevealHumanSize { st_mode := 0o100644, st_size := 999, st_uid := 0, st_gid := 0 }
      initialState).stdout = str "999B\n" := by
  decide

/-- When the gigabyte step of `RevealHumanSize` prints, the function returns
right after it. -/
theorem RevealHumanSize_of_giga (metadata : Stat) (s s1 : State)
    (h : PARSE_SIZE metadata GIGA (str "GB") s = some s1) :
    RevealHumanSize metadata s = s1 := by
  unfold RevealHumanSize
  rw [h]

/-- C7 (the claim as stated fails): for `bigfile` of 2147483648 bytes,
`reveal --human-size bigfile` does not write `2.0GB`. -/
theorem main_human_size_bigfile_ne :
    (main exampleWorld [str "reveal", str "--human-size", str "bigfile"]).1.stdout
      ≠ str "2.0GB\n" := by
  decide

/-- C7 (amended): for an entry whose size is 2147483648 bytes, the HumanSize
rendering written to the standard output by `reveal --human-size bigfile` is
exactly `2.1GB` (2147483648 / 10^9 = 2.147..., printed with one decimal), with
no diagnostic and exit code 0. -/
theorem main_human_size_bigfile :
    main exampleWorld [str "reveal", str "--human-size", str "bigfile"] =
      ({ stdout := str "2.1GB\n", stderr := [], exitCode := 0 }, 0) ∧
    ∀ (mode uid gid : Nat) (s : State),
      RevealHumanSize { st_mode := mode, st_size := 2147483648, st_uid := uid, st_gid := gid } s
        = printf (str "2.1GB\n") s := by
  refine ⟨by decide, fun mode uid gid s => RevealHumanSize_of_giga _ _ _ ?_⟩
  have hbuf : doubleToFloat (doubleDiv (longToDouble 2147483648) GIGA)
      = { num := 9007199, den := 4194304 } := by decide
  have e : PARSE_SIZE { st_mode := mode, st_size := 2147483648, st_uid := uid, st_gid := gid }
      GIGA (str "GB") s =
      if floatToInt (doubleToFloat (doubleDiv (longToDouble 2147483648) GIGA)) ≠ 0 then
        some (printf (formatF1 (doubleToFloat (doubleDiv (longToDouble 2147483648) GIGA))
          ++ str "GB" ++ str "\n") s)
      else none := rfl
  rw [e, hbuf]
  rfl

/-- C8 (evaluation at the failing input): the data type 9 selected by
`--human-permissions` has no case in `Reveal` and falls into the default
branch, so it behaves exactly as `--contents`; for the regular file `notes`
(mode 0644, content `hi`), `reveal --human-permissions notes` writes the
content `hi` and not the nine characters `rw-r--r--`. -/
theorem Reveal_human_permissions_reveals_contents :
    dataTypeFlagsLoop (str "--human-permissions") dataTypeFlags 0 = some 9 ∧
    (∀ (w : World) (path : CString) (isTranspassing : Nat) (s : State),
      Reveal w path 9 isTranspassing s = Reveal w path 0 isTranspassing s) ∧
    (main exampleWorld [str "reveal", str "--human-permissions", str "notes"]).1.stdout
      = str "hi\n" ∧
    (main exampleWorld [str "reveal", str "--human-permissions", str "notes"]).1.stdout
      ≠ str "rw-r--r--\n" := by
  refine ⟨by decide, fun w path isTranspassing s => ?_, by decide, by decide⟩
  unfold Reveal
  rfl

/-! ### The two loops of `main` -/

theorem PrintHelp_initialState :
    PrintHelp initialState =
      { stdout := (PrintHelp initialState).stdout, stderr := [], exitCode := EXIT_SUCCESS } :=
  rfl

/-- The first loop stops at the first metadata flag and prints its text. -/
theorem metadataFlagsLoop_first (pre post : List CString) (flag : CString)
    (hflag : flag ∈ metadataFlags) (hpre : ∀ a ∈ pre, a ∉ metadataFlags) :
    metadataFlagsLoop (pre ++ flag :: post) initialState =
      some { stdout := metadataText flag, stderr := [], exitCode := EXIT_SUCCESS } := by
  induction pre with
  | nil =>
    simp only [metadataFlags, List.mem_cons, List.mem_singleton, List.not_mem_nil,
      or_false] at hflag
    rcases hflag with h | h | h
    · subst h
      have h1 : str "--license" ≠ str "--help" := by decide
      simp [metadataFlagsLoop, PARSE_METADATA_FLAG, h1, metadataText]
      exact PrintHelp_initialState
    · subst h
      have h1 : str "--license" ≠ str "--version" := by decide
      have h2 : str "--help" ≠ str "--version" := by decide
      have h3 : str "--version" ≠ str "--license" := by decide
      have h4 : str "--version" ≠ str "--help" := by decide
      simp [metadataFlagsLoop, PARSE_METADATA_FLAG, h1, h2, h3, h4, metadataText, puts, printf,
        initialState]
    · subst h
      simp [metadataFlagsLoop, PARSE_METADATA_FLAG, metadataText, puts, printf, initialState]
  | cons a pre ih =>
    have ha : a ∉ metadataFlags := hpre a (List.mem_cons_self _ _)
    simp only [metadataFlags, List.mem_cons, List.mem_singleton, List.not_mem_nil,
      or_false, not_or] at ha
    obtain ⟨ha1, ha2, ha3⟩ := ha
    have ih2 := ih (fun b hb => hpre b (List.mem_cons_of_mem _ hb))
    simp only [List.cons_append, metadataFlagsLoop, PARSE_METADATA_FLAG]
    rw [if_neg (Ne.symm ha3), if_neg (Ne.symm ha1), if_neg (Ne.symm ha2)]
    exact ih2

/-- Without a metadata flag the first loop runs to its end. -/
theorem metadataFlagsLoop_none (arguments : List CString) (s : State)
    (h : ∀ a ∈ arguments, a ∉ metadataFlags) : metadataFlagsLoop arguments s = none := by
  induction arguments with
  | nil => rfl
  | cons a rest ih =>
    have ha : a ∉ metadataFlags := h a (List.mem_cons_self _ _)
    simp only [metadataFlags, List.mem_cons, List.mem_singleton, List.not_mem_nil,
      or_false, not_or] at ha
    obtain ⟨ha1, ha2, ha3⟩ := ha
    simp only [metadataFlagsLoop, PARSE_METADATA_FLAG]
    rw [if_neg (Ne.symm ha3), if_neg (Ne.symm ha1), if_neg (Ne.symm ha2)]
    exact ih (fun b hb => h b (List.mem_cons_of_mem _ hb))

/-- A list with a metadata flag splits at the first one. -/
theorem exists_first_metadataFlag (arguments : List CString)
    (h : ∃ a ∈ arguments, a ∈ metadataFlags) :
    ∃ pre flag post, arguments = pre ++ flag :: post ∧ flag ∈ metadataFlags ∧
      ∀ a ∈ pre, a ∉ metadataFlags := by
  induction arguments with
  | nil => simp at h
  | cons a rest ih =>
    by_cases ha : a ∈ metadataFlags
    · exact ⟨[], a, rest, rfl, ha, by simp⟩
    · have hrest : ∃ b ∈ rest, b ∈ metadataFlags := by
        obtain ⟨b, hb, hbm⟩ := h
        rcases List.mem_cons.mp hb with rfl | hb2
        · exact absurd hbm ha
        · exact ⟨b, hb2, hbm⟩
      obtain ⟨pre, flag, post, heq, hflag, hpre⟩ := ih hrest
      refine ⟨a :: pre, flag, post, by rw [heq]; rfl, hflag, ?_⟩
      intro b hb
      rcases List.mem_cons.mp hb with rfl | hb2
      · exact ha
      · exact hpre b hb2

/-- C10: when some argument after `arguments[0]` is `--help`, `--version` or
`--license`, whatever precedes or follows it, and whatever the file system
answers, `main` ends with exit code 0 in the state in which the standard
output holds only the text of the first such flag in argument order and no
diagnostic was written: no path is processed. -/
theorem main_metadata_flag (w : World) (arguments : List CString)
    (h : ∃ a ∈ arguments.drop 1, a ∈ metadataFlags) :
    ∃ pre flag post, arguments.drop 1 = pre ++ flag :: post ∧ flag ∈ metadataFlags ∧
      (∀ a ∈ pre, a ∉ metadataFlags) ∧
      main w arguments =
        ({ stdout := metadataText flag, stderr := [], exitCode := EXIT_SUCCESS },
          EXIT_SUCCESS) := by
  obtain ⟨pre, flag, post, heq, hflag, hpre⟩ := exists_first_metadataFlag _ h
  refine ⟨pre, flag, post, heq, hflag, hpre, ?_⟩
  unfold main
  rw [heq, metadataFlagsLoop_first pre post flag hflag hpre]

/-- The flags `--version` after a path and before `--help`: only the
version is printed, although `missingfile` does not exist. -/
theorem main_metadata_flag_witness :
    (∃ a ∈ [str "reveal", str "missingfile", str "--type", str "--version", str "/",
        str "--help"].drop 1, a ∈ metadataFlags) ∧
    main exampleWorld [str "reveal", str "missingfile", str "--type", str "--version",
        str "/", str "--help"] =
      ({ stdout := str "v5.2.0\n", stderr := [], exitCode := 0 }, 0) ∧
    ∃ pre flag post,
      [str "reveal", str "missingfile", str "--type", str "--version", str "/",
        str "--help"].drop 1 = pre ++ flag :: post ∧ flag ∈ metadataFlags ∧
      (∀ a ∈ pre, a ∉ metadataFlags) ∧
      main exampleWorld [str "reveal", str "missingfile", str "--type", str "--version",
        str "/", str "--help"] =
        ({ stdout := metadataText flag, stderr := [], exitCode := EXIT_SUCCESS },
          EXIT_SUCCESS) :=
  ⟨⟨str "--version", by decide, by decide⟩, by decide,
   main_metadata_flag exampleWorld _ ⟨str "--version", by decide, by decide⟩⟩

/-- The inner loop finds the rank of the argument in the list it scans. -/
theorem dataTypeFlagsLoop_eq (argument : CString) (flags : List CString) (j : Nat) :
    dataTypeFlagsLoop argument flags j =
      if argument ∈ flags then some ((j + flagRank argument flags) % 256) else none := by
  induction flags generalizing j with
  | nil => simp [dataTypeFlagsLoop]
  | cons flag rest ih =>
    unfold dataTypeFlagsLoop flagRank
    by_cases h : flag = argument
    · subst h
      simp
    · have h2 : ¬ argument = flag := fun e => h e.symm
      rw [if_neg h, if_neg h, ih]
      by_cases hmem : argument ∈ rest
      · simp [hmem, Nat.add_assoc, Nat.add_comm 1]
      · simp [hmem, h2]

/-- The inner loop on the table of `main`: the data type of a data-type
flag, nothing for another argument. -/
theorem dataTypeFlagsLoop_table (argument : CString) :
    dataTypeFlagsLoop argument dataTypeFlags 0 =
      if argument ∈ dataTypeFlags then some (dataTypeOfFlag argument) else none := by
  rw [dataTypeFlagsLoop_eq]
  by_cases h : argument ∈ dataTypeFlags
  · rw [if_pos h, if_pos h]
    simp only [dataTypeFlags, List.mem_cons, List.mem_singleton, List.not_mem_nil,
      or_false] at h
    rcases h with h | h | h | h | h | h | h | h | h | h | h | h <;> subst h <;> decide
  · rw [if_neg h, if_neg h]

theorem specDataType_append (earlier : List CString) (argument : CString) :
    specDataType (earlier ++ [argument]) =
      if argument ∈ dataTypeFlags then dataTypeOfFlag argument
      else specDataType earlier := by
  unfold specDataType
  by_cases h : argument ∈ dataTypeFlags
  · simp [List.reverse_append, List.find?_cons, h]
  · simp [List.reverse_append, List.find?_cons, h]

theorem specTranspass_append (earlier : List CString) (argument : CString) :
    specTranspass (earlier ++ [argument]) =
      if argument = str "--transpass" then 1
      else if argument = str "--untranspass" then 0
      else specTranspass earlier := by
  unfold specTranspass
  by_cases h1 : argument = str "--transpass"
  · subst h1
    simp [List.reverse_append, List.find?_cons, transpassFlags]
  · by_cases h2 : argument = str "--untranspass"
    · subst h2
      have h3 : str "--untranspass" ≠ str "--transpass" := by decide
      simp [List.reverse_append, List.find?_cons, transpassFlags, h3]
    · simp [List.reverse_append, List.find?_cons, transpassFlags, h1, h2]

theorem getD_append_length (earlier rest : List CString) (argument : CString) :
    (earlier ++ argument :: rest).getD earlier.length [] = argument := by
  induction earlier with
  | nil => rfl
  | cons a earlier ih => simpa using ih

/-- The calls expected position by position are the calls expected by
recursion on the arguments. -/
theorem specCallsFrom_eq (earlier rest : List CString) :
    (List.range rest.length).filterMap
        (fun i => specCallAt (earlier ++ rest) (earlier.length + i)) =
      specCallsFrom earlier rest := by
  induction rest generalizing earlier with
  | nil => simp [specCallsFrom]
  | cons argument rest ih =>
    have hstep : ∀ i, specCallAt (earlier ++ argument :: rest) (earlier.length + (i + 1)) =
        specCallAt ((earlier ++ [argument]) ++ rest) ((earlier ++ [argument]).length + i) := by
      intro i
      have e1 : earlier ++ argument :: rest = (earlier ++ [argument]) ++ rest := by simp
      have e2 : earlier.length + (i + 1) = (earlier ++ [argument]).length + i := by
        simp only [List.length_append, List.length_singleton]
        omega
      rw [e1, e2]
    have hhead : specCallAt (earlier ++ argument :: rest) (earlier.length + 0) =
        if isPathArgument argument then
          some (argument, specDataType earlier, specTranspass earlier)
        else none := by
      unfold specCallAt
      rw [Nat.add_zero, getD_append_length, List.take_left']
      rfl
    have hfun : (fun i => specCallAt (earlier ++ argument :: rest) (earlier.length + i)) ∘
        Nat.succ = fun i =>
          specCallAt ((earlier ++ [argument]) ++ rest) ((earlier ++ [argument]).length + i) := by
      funext i
      exact hstep i
    have hrhs : specCallsFrom earlier (argument :: rest) =
        (if isPathArgument argument then
            [(argument, specDataType earlier, specTranspass earlier)]
          else []) ++ specCallsFrom (earlier ++ [argument]) rest := rfl
    rw [hrhs, List.length_cons, List.range_succ_eq_map, List.filterMap_cons, hhead,
      List.filterMap_map, hfun, ih (earlier ++ [argument])]
    by_cases hp : isPathArgument argument = true
    · simp [hp]
    · simp [hp]

theorem specCalls_eq (arguments : List CString) :
    specCalls arguments = specCallsFrom [] arguments := by
  have h := specCallsFrom_eq [] arguments
  simpa [specCalls] using h

/-- The second loop, started with the selectors in effect after `earlier`,
performs the expected calls for `rest`, in order. -/
theorem argumentsLoop_eq_foldl {σ : Type} (reveal : CString → Nat → Nat → σ → σ)
    (earlier rest : List CString) (s : σ) :
    argumentsLoop reveal rest (specDataType earlier) (specTranspass earlier) s =
      (specCallsFrom earlier rest).foldl
        (fun acc call => reveal call.1 call.2.1 call.2.2 acc) s := by
  induction rest generalizing earlier s with
  | nil => simp [argumentsLoop, specCallsFrom]
  | cons argument rest ih =>
    have hlhs : argumentsLoop reveal (argument :: rest) (specDataType earlier)
        (specTranspass earlier) s =
        match dataTypeFlagsLoop argument dataTypeFlags 0 with
        | some j => argumentsLoop reveal rest j (specTranspass earlier) s
        | none =>
          if argument = str "--transpass" then
            argumentsLoop reveal rest (specDataType earlier) 1 s
          else if argument = str "--untranspass" then
            argumentsLoop reveal rest (specDataType earlier) 0 s
          else argumentsLoop reveal rest (specDataType earlier) (specTranspass earlier)
            (reveal argument (specDataType earlier) (specTranspass earlier) s) := rfl
    have hrhs : specCallsFrom earlier (argument :: rest) =
        (if isPathArgument argument then
            [(argument, specDataType earlier, specTranspass earlier)]
          else []) ++ specCallsFrom (earlier ++ [argument]) rest := rfl
    rw [hlhs, hrhs, dataTypeFlagsLoop_table]
    have ih2 := ih (earlier ++ [argument])
    rw [specDataType_append, specTranspass_append] at ih2
    by_cases hd : argument ∈ dataTypeFlags
    · have hnt : argument ≠ str "--transpass" := by
        intro e; subst e; revert hd; decide
      have hnu : argument ≠ str "--untranspass" := by
        intro e; subst e; revert hd; decide
      have hpath : isPathArgument argument = false := by simp [isPathArgument, hd]
      simp only [hd, hnt, hnu, if_true, if_false] at ih2
      simp only [hd, if_true, hpath, Bool.false_eq_true, if_false, List.nil_append]
      exact ih2 s
    · simp only [hd, if_false] at ih2
      simp only [hd, if_false]
      by_cases ht : argument = str "--transpass"
      · subst ht
        have hpath : isPathArgument (str "--transpass") = false := by decide
        simp only [if_true] at ih2
        simp only [if_true, hpath, Bool.false_eq_true, if_false, List.nil_append]
        exact ih2 s
      · by_cases hu : argument = str "--untranspass"
        · subst hu
          have hpath : isPathArgument (str "--untranspass") = false := by decide
          simp only [ht, if_true, if_false] at ih2
          simp only [ht, if_true, if_false, hpath, Bool.false_eq_true, List.nil_append]
          exact ih2 s
        · have hpath : isPathArgument argument = true := by
            simp [isPathArgument, transpassFlags, hd, ht, hu]
          simp only [ht, hu, if_false] at ih2
          simp only [ht, hu, if_false, hpath, if_true, List.singleton_append, List.foldl_cons]
          exact ih2 _

/-- C1: for an argument list without metadata flag, the second loop of
`main` calls `Reveal` exactly once for each argument that is neither a
data-type flag nor a transpass flag, in argument order; the call for the
path at position `i` receives the data type of the last data-type flag below
`i` (Contents if none) and the mode of the last transpass flag below `i`
(untranspassing if none), so later flags do not influence it.  This holds
for every function put in the place of `Reveal`, whatever it does to the
state, so an error on a path neither skips nor alters a later call; the log
of the calls is the expected list and the final state of `main` is the
result of the expected calls of `Reveal`, in order. -/
theorem main_calls_Reveal_in_order (w : World) (arguments : List CString)
    (h : ∀ a ∈ arguments.drop 1, a ∉ metadataFlags) :
    (∀ (σ : Type) (reveal : CString → Nat → Nat → σ → σ) (s : σ),
      argumentsLoop reveal (arguments.drop 1) 0 0 s =
        (specCalls (arguments.drop 1)).foldl
          (fun acc call => reveal call.1 call.2.1 call.2.2 acc) s) ∧
    argumentsLoop
        (fun path dataType isTranspassing (log : List (CString × Nat × Nat)) =>
          log ++ [(path, dataType, isTranspassing)])
        (arguments.drop 1) 0 0 [] = specCalls (arguments.drop 1) ∧
    (main w arguments).1 =
      (specCalls (arguments.drop 1)).foldl
        (fun acc call => Reveal w call.1 call.2.1 call.2.2 acc) initialState := by
  have hloop : ∀ (σ : Type) (reveal : CString → Nat → Nat → σ → σ) (s : σ),
      argumentsLoop reveal (arguments.drop 1) 0 0 s =
        (specCalls (arguments.drop 1)).foldl
          (fun acc call => reveal call.1 call.2.1 call.2.2 acc) s := by
    intro σ reveal s
    rw [specCalls_eq]
    exact argumentsLoop_eq_foldl reveal [] (arguments.drop 1) s
  refine ⟨hloop, ?_, ?_⟩
  · rw [hloop]
    have hlog : ∀ (calls log : List (CString × Nat × Nat)),
        calls.foldl (fun acc call => acc ++ [(call.1, call.2.1, call.2.2)]) log
          = log ++ calls := by
      intro calls
      induction calls with
      | nil => simp
      | cons call calls ih =>
        intro log
        rw [List.foldl_cons, ih]
        simp
    rw [hlog]
    rfl
  · unfold main
    rw [metadataFlagsLoop_none _ _ h]
    exact hloop State (Reveal w) initialState

/-- The run `reveal f --type --transpass / --size --untranspass missingfile`:
three calls, each with the selectors set before it. -/
theorem main_calls_Reveal_in_order_witness :
    (∀ a ∈ [str "reveal", str "f", str "--type", str "--transpass", str "/", str "--size",
        str "--untranspass", str "missingfile"].drop 1, a ∉ metadataFlags) ∧
    specCalls ([str "reveal", str "f", str "--type", str "--transpass", str "/", str "--size",
        str "--untranspass", str "missingfile"].drop 1) =
      [(str "f", 0, 0), (str "/", 1, 1), (str "missingfile", 2, 0)] ∧
    argumentsLoop
        (fun path dataType isTranspassing (log : List (CString × Nat × Nat)) =>
          log ++ [(path, dataType, isTranspassing)])
        ([str "reveal", str "f", str "--type", str "--transpass", str "/", str "--size",
          str "--untranspass", str "missingfile"].drop 1) 0 0 [] =
      specCalls ([str "reveal", str "f", str "--type", str "--transpass", str "/",
        str "--size", str "--untranspass", str "missingfile"].drop 1) :=
  ⟨by decide, by decide,
   (main_calls_Reveal_in_order exampleWorld
      [str "reveal", str "f", str "--type", str "--transpass", str "/", str "--size",
        str "--untranspass", str "missingfile"] (by decide)).2.1⟩

/-! ### The exit code -/

theorem Framed.congr {f g : State → State} (h : ∀ s, f s = g s) (hg : Framed g) :
    Framed f := by
  obtain ⟨out, err, hg⟩ := hg
  exact ⟨out, err, fun s => by rw [h, hg]⟩

theorem printf_framed (text : List Nat) : Framed (printf text) :=
  ⟨text, [], fun s => by simp [printf]⟩

theorem puts_framed (text : CString) : Framed (puts text) :=
  ⟨text ++ str "\n", [], fun s => by simp [puts, printf]⟩

theorem PrintComposedError_framed (a b c : CString) : Framed (PrintComposedError a b c) :=
  ⟨[], [composedError a b c], fun s => by simp [PrintComposedError]⟩

theorem RevealType_framed (metadata : Stat) : Framed (RevealType metadata) := by
  unfold RevealType
  simp only []
  split_ifs <;> exact puts_framed _

theorem RevealHumanSize_framed (metadata : Stat) : Framed (RevealHumanSize metadata) := by
  have hparse : ∀ (multiplier : Fp) (unit : CString),
      (∃ text, ∀ s, PARSE_SIZE metadata multiplier unit s = some (printf text s)) ∨
      (∀ s, PARSE_SIZE metadata multiplier unit s = none) := by
    intro multiplier unit
    by_cases hz : floatToInt (doubleToFloat (doubleDiv (longToDouble metadata.st_size)
        multiplier)) ≠ 0
    · exact Or.inl ⟨_, fun s => by unfold PARSE_SIZE; simp only []; rw [if_pos hz]⟩
    · exact Or.inr (fun s => by unfold PARSE_SIZE; simp only []; rw [if_neg hz])
  rcases hparse GIGA (str "GB") with ⟨text, hg⟩ | hg
  · exact Framed.congr (fun s => by unfold RevealHumanSize; rw [hg]) (printf_framed text)
  rcases hparse MEGA (str "MB") with ⟨text, hm⟩ | hm
  · exact Framed.congr (fun s => by unfold RevealHumanSize; rw [hg, hm]) (printf_framed text)
  rcases hparse KILO (str "KB") with ⟨text, hk⟩ | hk
  · exact Framed.congr (fun s => by unfold RevealHumanSize; rw [hg, hm, hk])
      (printf_framed text)
  · exact Framed.congr (fun s => by unfold RevealHumanSize; rw [hg, hm, hk])
      (printf_framed _)

theorem RevealUser_framed (w : World) (metadata : Stat) (path : CString) :
    Framed (RevealUser w metadata path) := by
  cases h : w.getpwuid metadata.st_uid with
  | none =>
    exact Framed.congr (fun s => by unfold RevealUser; rw [h])
      (PrintComposedError_framed _ _ _)
  | some name => exact Framed.congr (fun s => by unfold RevealUser; rw [h]) (puts_framed name)

theorem RevealGroup_framed (w : World) (metadata : Stat) (path : CString) :
    Framed (RevealGroup w metadata path) := by
  cases h : w.getgrgid metadata.st_gid with
  | none =>
    exact Framed.congr (fun s => by unfold RevealGroup; rw [h])
      (PrintComposedError_framed _ _ _)
  | some name => exact Framed.congr (fun s => by unfold RevealGroup; rw [h]) (puts_framed name)

theorem RevealFileLoop_printf (file : List Nat) :
    ∃ text, ∀ s, RevealFileLoop file s = printf text s := by
  induction file with
  | nil => exact ⟨[], fun s => by simp [RevealFileLoop, printf]⟩
  | cons byte rest ih =>
    obtain ⟨text, ih⟩ := ih
    by_cases h : intToChar (byte : Int) ≠ EOF
    · refine ⟨[((intToChar (byte : Int)) % 256).toNat] ++ text, fun s => ?_⟩
      unfold RevealFileLoop
      simp only []
      rw [if_pos h, ih]
      simp [putchar, printf]
    · refine ⟨[], fun s => ?_⟩
      unfold RevealFileLoop
      simp only []
      rw [if_neg h]
      simp [printf]

theorem RevealFile_framed (w : World) (path : CString) : Framed (RevealFile w path) := by
  cases h : w.fopen path with
  | none =>
    exact Framed.congr (fun s => by unfold RevealFile; rw [h])
      (PrintComposedError_framed _ _ _)
  | some file =>
    obtain ⟨text, htext⟩ := RevealFileLoop_printf file
    exact Framed.congr (fun s => by unfold RevealFile; rw [h]; exact htext s)
      (printf_framed text)

theorem RevealDirectory_framed (w : World) (path : CString) :
    Framed (RevealDirectory w path) := by
  cases hA : w.realpath path with
  | none =>
    exact Framed.congr (fun s => by unfold RevealDirectory; rw [hA])
      (PrintComposedError_framed _ _ _)
  | some A =>
    cases hopen : w.opendir path with
    | none =>
      exact Framed.congr (fun s => by unfold RevealDirectory; rw [hA, hopen])
        (PrintComposedError_framed _ _ _)
    | some names =>
      refine Framed.congr (fun s => ?_) (printf_framed
        ((names.filter (fun name => decide (name ≠ str "." ∧ name ≠ str ".."))).map
          (fun name =>
            A ++ (if A = str "/" then str "" else str "/") ++ name ++ str "\n")).flatten)
      unfold RevealDirectory
      rw [hA, hopen]
      simp only []
      rw [RevealDirectoryLoop_eq]
      rfl

theorem Reveal_framed (w : World) (path : CString) (dataType isTranspassing : Nat) :
    Framed (Reveal w path dataType isTranspassing) := by
  cases hstat : (if isTranspassing ≠ 0 then w.stat path else w.lstat path) with
  | none =>
    exact Framed.congr (fun s => by unfold Reveal; rw [hstat])
      (PrintComposedError_framed _ _ _)
  | some metadata =>
    have hsome : ∀ s, Reveal w path dataType isTranspassing s =
        match dataType with
        | 1 => RevealType metadata s
        | 2 => printf (decimal metadata.st_size ++ str "\n") s
        | 3 => RevealHumanSize metadata s
        | 4 => RevealUser w metadata path s
        | 5 => printf (decimal metadata.st_uid ++ str "\n") s
        | 6 => RevealGroup w metadata path s
        | 7 => printf (decimal metadata.st_gid ++ str "\n") s
        | _ =>
          if metadata.st_mode &&& S_IFMT = S_IFREG then RevealFile w path s
          else if metadata.st_mode &&& S_IFMT = S_IFDIR then RevealDirectory w path s
          else PrintComposedError (str "can not reveal the contents of \"") path
            (str "\" type.") s := by
      intro s
      unfold Reveal
      rw [hstat]
    have hcontents : Framed (fun s =>
        if metadata.st_mode &&& S_IFMT = S_IFREG then RevealFile w path s
        else if metadata.st_mode &&& S_IFMT = S_IFDIR then RevealDirectory w path s
        else PrintComposedError (str "can not reveal the contents of \"") path
          (str "\" type.") s) := by
      by_cases hreg : metadata.st_mode &&& S_IFMT = S_IFREG
      · exact Framed.congr (fun s => by rw [if_pos hreg])
          (RevealFile_framed w path)
      · by_cases hdir : metadata.st_mode &&& S_IFMT = S_IFDIR
        · exact Framed.congr (fun s => by rw [if_neg hreg, if_pos hdir])
            (RevealDirectory_framed w path)
        · exact Framed.congr (fun s => by rw [if_neg hreg, if_neg hdir])
            (PrintComposedError_framed (str "can not reveal the contents of \"") path
              (str "\" type."))
    match dataType, hsome with
    | 0, hsome => exact Framed.congr (fun s => by rw [hsome]) hcontents
    | 1, hsome => exact Framed.congr (fun s => by rw [hsome]) (RevealType_framed metadata)
    | 2, hsome => exact Framed.congr (fun s => by rw [hsome]) (printf_framed _)
    | 3, hsome => exact Framed.congr (fun s => by rw [hsome]) (RevealHumanSize_framed metadata)
    | 4, hsome => exact Framed.congr (fun s => by rw [hsome]) (RevealUser_framed w metadata path)
    | 5, hsome => exact Framed.congr (fun s => by rw [hsome]) (printf_framed _)
    | 6, hsome => exact Framed.congr (fun s => by rw [hsome]) (RevealGroup_framed w metadata path)
    | 7, hsome => exact Framed.congr (fun s => by rw [hsome]) (printf_framed _)
    | n + 8, hsome => exact Framed.congr (fun s => by rw [hsome]; rfl) hcontents

/-- The diagnostics of a call of `Reveal` do not depend on the state it
starts from: they are appended to the ones already written. -/
theorem Reveal_stderr (w : World) (path : CString) (dataType isTranspassing : Nat)
    (s : State) :
    (Reveal w path dataType isTranspassing s).stderr =
      s.stderr ++ (Reveal w path dataType isTranspassing initialState).stderr := by
  obtain ⟨out, err, h⟩ := Reveal_framed w path dataType isTranspassing
  rw [h s, h initialState]
  simp [initialState]

/-- A call of `Reveal` sets the exit code to failure when it writes a
diagnostic and leaves it unchanged otherwise. -/
theorem Reveal_exitCode (w : World) (path : CString) (dataType isTranspassing : Nat)
    (s : State) :
    (Reveal w path dataType isTranspassing s).exitCode =
      if (Reveal w path dataType isTranspassing initialState).stderr = [] then s.exitCode
      else EXIT_FAILURE := by
  obtain ⟨out, err, h⟩ := Reveal_framed w path dataType isTranspassing
  rw [h s, h initialState]
  simp [initialState]

/-- The state after a sequence of calls of `Reveal`: either no call reports
an error and the diagnostics and the exit code are the initial ones, or some
call reports an error, a diagnostic was written and the exit code is failure. -/
theorem foldl_Reveal (w : World) (calls : List (CString × Nat × Nat)) (s : State) :
    ((calls.foldl (fun acc call => Reveal w call.1 call.2.1 call.2.2 acc) s).stderr = s.stderr ∧
      (calls.foldl (fun acc call => Reveal w call.1 call.2.1 call.2.2 acc) s).exitCode
        = s.exitCode ∧
      ∀ call ∈ calls, (Reveal w call.1 call.2.1 call.2.2 initialState).stderr = []) ∨
    ((calls.foldl (fun acc call => Reveal w call.1 call.2.1 call.2.2 acc) s).stderr ≠ [] ∧
      (calls.foldl (fun acc call => Reveal w call.1 call.2.1 call.2.2 acc) s).exitCode
        = EXIT_FAILURE ∧
      ∃ call ∈ calls, (Reveal w call.1 call.2.1 call.2.2 initialState).stderr ≠ []) := by
  induction calls generalizing s with
  | nil =>
    left
    exact ⟨rfl, rfl, fun call hcall => absurd hcall (List.not_mem_nil _)⟩
  | cons call calls ih =>
    rw [List.foldl_cons]
    have hs := Reveal_stderr w call.1 call.2.1 call.2.2 s
    have hc := Reveal_exitCode w call.1 call.2.1 call.2.2 s
    by_cases herr : (Reveal w call.1 call.2.1 call.2.2 initialState).stderr = []
    · rw [herr, List.append_nil] at hs
      rw [if_pos herr] at hc
      rcases ih (Reveal w call.1 call.2.1 call.2.2 s) with ⟨h1, h2, h3⟩ | ⟨h1, h2, c, hcm, hce⟩
      · left
        refine ⟨h1.trans hs, h2.trans hc, ?_⟩
        intro c hcm
        rcases List.mem_cons.mp hcm with rfl | hcm2
        · exact herr
        · exact h3 c hcm2
      · right
        exact ⟨h1, h2, c, List.mem_cons_of_mem _ hcm, hce⟩
    · rw [if_neg herr] at hc
      have hne : (Reveal w call.1 call.2.1 call.2.2 s).stderr ≠ [] := by
        rw [hs]
        intro hnil
        exact herr (List.append_eq_nil.mp hnil).2
      right
      rcases ih (Reveal w call.1 call.2.1 call.2.2 s) with ⟨h1, h2, _⟩ | ⟨h1, h2, _⟩
      · exact ⟨by rw [h1]; exact hne, h2.trans hc, call, List.mem_cons_self _ _, herr⟩
      · exact ⟨h1, h2, call, List.mem_cons_self _ _, herr⟩

/-- C2: for an argument list without metadata flag, the value returned by
`main` is 1 exactly when a diagnostic was written (`PrintComposedError` is
the only writer of the standard error), which happens exactly when the call
of `Reveal` for some path reports an error, and 0 otherwise; the exit flag
starts at success and a call of `Reveal` never resets a failure. -/
theorem main_exit_code (w : World) (arguments : List CString)
    (h : ∀ a ∈ arguments.drop 1, a ∉ metadataFlags) :
    ((main w arguments).2 = 1 ↔ (main w arguments).1.stderr ≠ []) ∧
    ((main w arguments).2 = 0 ↔ (main w arguments).1.stderr = []) ∧
    ((main w arguments).1.stderr ≠ [] ↔
      ∃ call ∈ specCalls (arguments.drop 1),
        (Reveal w call.1 call.2.1 call.2.2 initialState).stderr ≠ []) ∧
    initialState.exitCode = EXIT_SUCCESS ∧
    (∀ (path : CString) (dataType isTranspassing : Nat) (s : State),
      s.exitCode = EXIT_FAILURE →
        (Reveal w path dataType isTranspassing s).exitCode = EXIT_FAILURE) := by
  have hloop : argumentsLoop (Reveal w) (arguments.drop 1) 0 0 initialState =
      (specCalls (arguments.drop 1)).foldl
        (fun acc call => Reveal w call.1 call.2.1 call.2.2 acc) initialState := by
    rw [specCalls_eq]
    exact argumentsLoop_eq_foldl (Reveal w) [] (arguments.drop 1) initialState
  have hmain : main w arguments =
      ((specCalls (arguments.drop 1)).foldl
          (fun acc call => Reveal w call.1 call.2.1 call.2.2 acc) initialState,
        ((specCalls (arguments.drop 1)).foldl
          (fun acc call => Reveal w call.1 call.2.1 call.2.2 acc) initialState).exitCode) := by
    unfold main
    rw [metadataFlagsLoop_none _ _ h, ← hloop]
  have hinit : initialState.stderr = [] := rfl
  have hinitc : initialState.exitCode = 0 := rfl
  have hfail : EXIT_FAILURE = 1 := rfl
  rw [hmain]
  dsimp only
  refine ⟨?_, ?_, ?_, rfl, ?_⟩
  · rcases foldl_Reveal w (specCalls (arguments.drop 1)) initialState with
      ⟨h1, h2, _⟩ | ⟨h1, h2, _⟩
    · rw [hinit] at h1
      rw [hinitc] at h2
      constructor
      · intro h3
        rw [h2] at h3
        exact absurd h3 (by decide)
      · intro h3
        exact absurd h1 h3
    · exact ⟨fun _ => h1, fun _ => h2.trans hfail⟩
  · rcases foldl_Reveal w (specCalls (arguments.drop 1)) initialState with
      ⟨h1, h2, _⟩ | ⟨h1, h2, _⟩
    · rw [hinit] at h1
      rw [hinitc] at h2
      exact ⟨fun _ => h1, fun _ => h2⟩
    · constructor
      · intro h3
        rw [h2, hfail] at h3
        exact absurd h3 (by decide)
      · intro h3
        exact absurd h3 h1
  · rcases foldl_Reveal w (specCalls (arguments.drop 1)) initialState with
      ⟨h1, _, h3⟩ | ⟨h1, _, h3⟩
    · rw [hinit] at h1
      constructor
      · intro h4
        exact absurd h1 h4
      · rintro ⟨call, hcall, hne⟩
        exact absurd (h3 call hcall) hne
    · exact ⟨fun _ => h3, fun _ => h1⟩
  · intro path dataType isTranspassing s hs
    rw [Reveal_exitCode, hs]
    split_ifs <;> rfl

/-- The run `reveal f missingfile notes` fails on its second path only:
exit code 1; the run `reveal notes` succeeds: exit code 0. -/
theorem main_exit_code_witness :
    (∀ a ∈ [str "reveal", str "f", str "missingfile", str "notes"].drop 1,
      a ∉ metadataFlags) ∧
    main exampleWorld [str "reveal", str "f", str "missingfile", str "notes"] =
      ({ stdout := [0x41] ++ str "hi\n"
         stderr := [str "reveal: the path \"missingfile\" does not points to anything.\n"]
         exitCode := 1 }, 1) ∧
    (main exampleWorld [str "reveal", str "notes"]).2 = 0 ∧
    ((main exampleWorld [str "reveal", str "f", str "missingfile", str "notes"]).2 = 1 ↔
      (main exampleWorld [str "reveal", str "f", str "missingfile", str "notes"]).1.stderr
        ≠ []) :=
  ⟨by decide, by decide, by decide,
   (main_exit_code exampleWorld [str "reveal", str "f", str "missingfile", str "notes"]
      (by decide)).1⟩

end RevealC
